import Mathlib

/-!
Verification development for the abi3999/actualcamcar repository.

The repository contains two viewer components implementing the dual-transport
live-session logic (src/components/StreamViewer.tsx, and the WebcamViewer
variant shipped as an unnamed source file), an MQTT hook
(src/hooks/useMQTT.ts) and the vehicle-control page (src/pages/Index.tsx).

The definitions below are a shallow embedding of that code:

* `WV` is the React component state of the WebcamViewer variant (the richer
  of the two viewers: it has a signaling-socket ref, a connection-type field,
  10-second open timeouts, and a closure-code check).  Transport objects
  created by the component (signaling WebSocket, streaming WebSocket,
  RTCPeerConnection) are kept in association lists keyed by a fresh numeric
  handle; a component ref holds such a handle or none.  The `closed` flag of
  an entry records whether the component code has invoked close() on that
  object; the source only ever does so inside `disconnect`.
* `connectToStream` is the coarse-grained outcome of the source's
  connectToStream: the two boolean parameters say whether the WebRTC attempt
  and (if reached) the WebSocket fallback attempt settled successfully.
  The synchronous prefix of connectWebRTC / connectWebSocket (creating the
  sockets and the peer connection and storing them in the refs) is modelled
  exactly; the source performs no cleanup on any failure path.
* `handleSignalingMessage` is the signalingWs.onmessage handler installed by
  connectWebRTC.  It is keyed by the socket handle it was installed on; the
  source never uninstalls it and never consults any per-attempt token.
* `wsOnClose` / `svWsOnClose` are the streaming socket's onclose handlers of
  the two variants, and the `OpenOutcome` races model the presence (WebcamViewer)
  and absence (StreamViewer) of the 10-second open timeouts.
* `mqttStep`, `publishMessage` embed useMQTT.ts; `handleControlPress` /
  `handleControlRelease` embed the control handlers of Index.tsx.
-/

/-- Stream quality values used by both viewers ('HD' | 'SD' | 'LOW'). -/
inductive Quality where
  | HD
  | SD
  | LOW
  deriving DecidableEq, Repr

/-- connectionType state of the WebcamViewer variant ('WebRTC' | 'WebSocket' | null
when wrapped in Option). -/
inductive ConnType where
  | WebRTC
  | WebSocket
  deriving DecidableEq, Repr

/-- The two kinds of WebSocket the viewer creates: the signaling channel and the
fallback streaming channel. -/
inductive SockKind where
  | signaling
  | stream
  deriving DecidableEq, Repr

/-- Bookkeeping for one WebSocket created by the component.  `attempt` is the
index of the connectToStream call that created it, `bid` the broadcast id baked
into its URL and captured by its handlers, `pc` the handle of the peer
connection captured by the signaling onmessage closure (0 for streaming
sockets, which have no peer connection), and `closed` records whether the
component code has called close() on it (only `disconnect` does). -/
structure SockInfo where
  kind : SockKind
  attempt : Nat
  bid : String
  pc : Nat
  closed : Bool
  deriving DecidableEq, Repr

/-- State of one RTCPeerConnection created by connectWebRTC.  `closed` records
whether the component code has called close() on it (only `disconnect` does). -/
structure PCInfo where
  attempt : Nat
  remoteDescription : Option String
  localDescription : Option String
  addedCandidates : List String
  closed : Bool
  deriving DecidableEq, Repr

/-- Network open operations the viewer performs, recorded for the claims about
which transports a connect call touches. -/
inductive NetAction where
  | openSignaling (bid : String)
  | openStream (bid : String)
  deriving DecidableEq, Repr

/-- Messages the viewer sends back over the signaling socket. -/
inductive OutMsg where
  | answer (sdp : String) (bid : String)
  deriving DecidableEq, Repr

/-- Component state of the WebcamViewer variant, together with the transport
objects it has created.  The first block mirrors the useState fields, the
refs mirror peerConnectionRef / signalingWsRef / websocketRef, and
`socks` / `pcs` hold every transport object ever created, keyed by the handle
stored in the refs (`nextId` supplies fresh handles).  `attemptCount` counts
connectToStream calls that passed the blank-id check; `sent` and `netLog`
record outbound signaling messages and transport open operations. -/
structure WV where
  broadcastId : String
  isConnecting : Bool
  isConnected : Bool
  error : Option String
  viewerCount : Nat
  streamQuality : Quality
  connectionType : Option ConnType
  peerConnectionRef : Option Nat
  signalingWsRef : Option Nat
  websocketRef : Option Nat
  videoSrcObject : Option Nat
  videoSrc : String
  nextId : Nat
  socks : List (Nat × SockInfo)
  pcs : List (Nat × PCInfo)
  attemptCount : Nat
  sent : List OutMsg
  netLog : List NetAction
  deriving DecidableEq, Repr

/-- Lookup in the handle table: first entry with the given key. -/
def alookup {β : Type} : Nat → List (Nat × β) → Option β
  | _, [] => none
  | k, p :: t => if k = p.1 then some p.2 else alookup k t

/-- Update the entry with key `h` of an association list by `f`. -/
def updAt {β : Type} (l : List (Nat × β)) (h : Nat) (f : β → β) : List (Nat × β) :=
  l.map (fun p => if p.1 = h then (p.1, f p.2) else p)

/-- Mark a socket closed (the effect of ws.close() on our bookkeeping). -/
def closeSock (l : List (Nat × SockInfo)) (h : Nat) : List (Nat × SockInfo) :=
  updAt l h (fun i => { i with closed := true })

/-- Mark a peer connection closed (the effect of pc.close()). -/
def closePC (l : List (Nat × PCInfo)) (h : Nat) : List (Nat × PCInfo) :=
  updAt l h (fun i => { i with closed := true })

/-- The source's `if (ref.current) ref.current.close()` pattern on a socket ref. -/
def closeRefSock (l : List (Nat × SockInfo)) (r : Option Nat) : List (Nat × SockInfo) :=
  match r with
  | some h => closeSock l h
  | none => l

/-- The source's `if (ref.current) ref.current.close()` pattern on the pc ref. -/
def closeRefPC (l : List (Nat × PCInfo)) (r : Option Nat) : List (Nat × PCInfo) :=
  match r with
  | some h => closePC l h
  | none => l

/-- The WebcamViewer's `disconnect`: closes the peer connection, the signaling
socket and the streaming socket if their refs are set, nulls the refs, clears
the video element, and resets isConnected, isConnecting, error, viewerCount and
connectionType. -/
def disconnect (s : WV) : WV :=
  { s with
    pcs := closeRefPC s.pcs s.peerConnectionRef
    socks := closeRefSock (closeRefSock s.socks s.signalingWsRef) s.websocketRef
    peerConnectionRef := none
    signalingWsRef := none
    websocketRef := none
    videoSrcObject := none
    videoSrc := ""
    isConnected := false
    isConnecting := false
    error := none
    viewerCount := 0
    connectionType := none }

/-- The WebcamViewer's getStatusText: error wins, then connected, then
connecting, else 'Disconnected'. -/
def getStatusText (s : WV) : String :=
  if s.error.isSome then "Error"
  else if s.isConnected then "Connected"
  else if s.isConnecting then "Connecting"
  else "Disconnected"

/-- JS String.prototype.trim: strip leading and trailing whitespace.  (Defined
structurally over the character list so that concrete states evaluate.) -/
def trimJS (s : String) : String :=
  ⟨((s.data.dropWhile Char.isWhitespace).reverse.dropWhile Char.isWhitespace).reverse⟩

/-- JS String.prototype.toUpperCase. -/
def toUpperJS (s : String) : String :=
  ⟨s.data.map Char.toUpper⟩

/-- The broadcast id input's onChange handler of the WebcamViewer variant,
which upper-cases the typed value. -/
def setBroadcastId (s : WV) (v : String) : WV :=
  { s with broadcastId := toUpperJS v }

/-- The synchronous prefix of connectWebRTC for attempt `a`: create the
signaling WebSocket for `/signaling/viewer/{broadcastId}` and store it in
signalingWsRef, then create the RTCPeerConnection and store it in
peerConnectionRef.  Handlers are installed on both objects at this point;
nothing is ever torn down here. -/
def beginWebRTCAttempt (a : Nat) (s : WV) : WV :=
  { s with
    nextId := s.nextId + 2
    socks := (s.nextId,
      { kind := SockKind.signaling, attempt := a, bid := s.broadcastId,
        pc := s.nextId + 1, closed := false }) :: s.socks
    pcs := (s.nextId + 1,
      { attempt := a, remoteDescription := none, localDescription := none,
        addedCandidates := [], closed := false }) :: s.pcs
    signalingWsRef := some s.nextId
    peerConnectionRef := some (s.nextId + 1)
    netLog := s.netLog ++ [NetAction.openSignaling s.broadcastId] }

/-- The synchronous prefix of connectWebSocket for attempt `a`: create the
streaming WebSocket for `/stream/{broadcastId.trim()}` and store it in
websocketRef. -/
def beginWebSocketAttempt (a : Nat) (s : WV) : WV :=
  { s with
    nextId := s.nextId + 1
    socks := (s.nextId,
      { kind := SockKind.stream, attempt := a, bid := trimJS s.broadcastId,
        pc := 0, closed := false }) :: s.socks
    websocketRef := some s.nextId
    netLog := s.netLog ++ [NetAction.openStream (trimJS s.broadcastId)] }

/-- State reached right after the non-blank branch of connectToStream has run
its synchronous part: isConnecting set, error cleared, connectionType cleared,
and connectWebRTC's synchronous prefix executed for a fresh attempt index. -/
def connectStart (s : WV) : WV :=
  beginWebRTCAttempt s.attemptCount
    { s with
      isConnecting := true
      error := none
      connectionType := none
      attemptCount := s.attemptCount + 1 }

/-- The peer connection's ontrack handler: if the video element and a stream
are present, attach the stream, set isConnected, clear isConnecting, and bump
viewerCount by one.  It is installed on one specific peer connection and runs
as long as that object has not been closed. -/
def onTrack (s : WV) (h : Nat) (streamTok : Nat) : WV :=
  match alookup h s.pcs with
  | some info =>
    if info.closed then s
    else
      { s with
        videoSrcObject := some streamTok
        isConnected := true
        isConnecting := false
        viewerCount := s.viewerCount + 1 }
  | none => s

/-- Coarse-grained connectToStream of the WebcamViewer variant.  A blank
(empty or whitespace-only) broadcast id is rejected with the validation
message and nothing else happens.  Otherwise the WebRTC attempt is started;
`rtcOk` says whether it settled successfully (ontrack fired, after which
connectToStream records connectionType 'WebRTC').  On WebRTC failure the
WebSocket fallback is started; `wsOk` says whether its open event arrived.
On double failure the user-facing error is set and isConnecting cleared —
and, exactly as in the source, nothing created along the way is closed. -/
def connectToStream (s : WV) (rtcOk wsOk : Bool) : WV :=
  if trimJS s.broadcastId = "" then
    { s with error := some "Please enter a valid Broadcast ID" }
  else
    let a := s.attemptCount
    let pcId := s.nextId + 1
    let s2 := connectStart s
    if rtcOk then
      { onTrack s2 pcId pcId with connectionType := some ConnType.WebRTC }
    else
      let s3 := beginWebSocketAttempt a s2
      if wsOk then
        { s3 with
          isConnected := true
          isConnecting := false
          connectionType := some ConnType.WebSocket }
      else
        { s3 with
          isConnecting := false
          error := some "Unable to connect to stream. Please check the Broadcast ID and ensure the broadcaster is active." }

/-- Number of transport handles currently held by the component refs. -/
def liveHeldTransports (s : WV) : Nat :=
  (if s.peerConnectionRef.isSome then 1 else 0) +
  (if s.signalingWsRef.isSome then 1 else 0) +
  (if s.websocketRef.isSome then 1 else 0)

/-- Attempt indices that still own a socket on which the component never
called close(). -/
def openAttempts (s : WV) : List Nat :=
  ((s.socks.filter (fun p => !p.2.closed)).map (fun p => p.2.attempt)).dedup

/-- Signaling messages the viewer's onmessage handler dispatches on
(the `type` field of the JSON object).  Optional payloads model the source's
uses of `message.candidate`, `message.viewerCount || 0` and
`message.quality || 'HD'`. -/
inductive SigMsg where
  | offer (sdp : String)
  | iceCandidate (candidate : Option String)
  | streamInfo (viewerCount : Option Nat) (quality : Option Quality)
  | errorMsg (message : Option String)
  | streamEnded
  | streamNotFound
  | other
  deriving DecidableEq, Repr

/-- Models the browser RTCPeerConnection.addIceCandidate call: it succeeds
(appending the candidate) only once a remote description has been applied;
beforehand it fails with InvalidStateError, which the source's surrounding
try/catch swallows after logging. -/
def addIceCandidate (info : PCInfo) (c : String) : Option PCInfo :=
  if info.remoteDescription.isSome then
    some { info with addedCandidates := info.addedCandidates ++ [c] }
  else none

/-- The local answer the handler synthesizes for a received offer
(createAnswer followed by setLocalDescription). -/
def answerFor (sdp : String) : String := "answer:" ++ sdp

/-- The signalingWs.onmessage handler of the WebcamViewer's connectWebRTC,
attached to socket `h` when that socket was created.  It runs for any message
arriving on a socket the component never closed — the source installs it once
and never removes it, and it checks no per-attempt token before applying its
effect.  Cases follow the source switch: an offer is applied as remote
description and answered; an ice-candidate is handed straight to
addIceCandidate on the peer connection captured by the closure (a failure is
caught and logged, dropping the candidate); stream-info overwrites viewerCount
and streamQuality; 'error' and 'stream-not-found' reject the attempt promise
(settled promises ignore late rejections, so no component state changes here);
stream-ended sets an error message and calls disconnect. -/
def handleSignalingMessage (s : WV) (h : Nat) (msg : SigMsg) : WV :=
  match alookup h s.socks with
  | none => s
  | some info =>
    if info.closed then s
    else if info.kind = SockKind.signaling then
      match msg with
      | SigMsg.offer sdp =>
        match alookup info.pc s.pcs with
        | some pcInfo =>
          if pcInfo.closed then s
          else
            { s with
              pcs := updAt s.pcs info.pc (fun i =>
                { i with
                  remoteDescription := some sdp
                  localDescription := some (answerFor sdp) })
              sent := s.sent ++ [OutMsg.answer (answerFor sdp) info.bid] }
        | none => s
      | SigMsg.iceCandidate c =>
        match c with
        | some cand =>
          match alookup info.pc s.pcs with
          | some pcInfo =>
            if pcInfo.closed then s
            else
              match addIceCandidate pcInfo cand with
              | some pc2 => { s with pcs := updAt s.pcs info.pc (fun _ => pc2) }
              | none => s
          | none => s
        | none => s
      | SigMsg.streamInfo vc q =>
        { s with viewerCount := vc.getD 0, streamQuality := q.getD Quality.HD }
      | SigMsg.errorMsg _ => s
      | SigMsg.streamEnded => disconnect { s with error := some "Stream has ended" }
      | SigMsg.streamNotFound => s
      | SigMsg.other => s
    else s

/-- The streaming socket's onclose handler of the WebcamViewer variant:
isConnected is cleared, and 'Connection lost' is raised exactly when the
closure code is not 1000 (normal closure) — no check of whether the socket had
ever been connected. -/
def wsOnClose (s : WV) (code : Nat) : WV :=
  let s2 := { s with isConnected := false }
  if code ≠ 1000 then { s2 with error := some "Connection lost" } else s2

/-- Component state of the StreamViewer.tsx variant, restricted to the fields
its streaming-socket onclose handler touches. -/
structure SVState where
  isConnecting : Bool
  isConnected : Bool
  error : Option String
  viewerCount : Nat
  deriving DecidableEq, Repr

/-- The streaming socket's onclose handler of the StreamViewer.tsx variant:
it ignores the closure code entirely and always clears isConnected and sets
'Connection lost' — including on a normal (code 1000) closure such as the one
caused by the user's own disconnect. -/
def svWsOnClose (s : SVState) (_code : Nat) : SVState :=
  { s with isConnected := false, error := some "Connection lost" }

/-- Outcome of racing a transport's open event against the attempt's timeout
(if any): the attempt either proceeds, is rejected with a message, or — with
no timer armed and no open event — stays pending forever. -/
inductive OpenOutcome where
  | opened
  | rejected (msg : String)
  | pending
  deriving DecidableEq, Repr

/-- WebcamViewer connectWebRTC: setTimeout(reject('Signaling connection
timeout'), 10000), cleared by onopen.  `openAt` is the time of the open event,
none if it never occurs. -/
def signalingOpenRace (openAt : Option Nat) : OpenOutcome :=
  match openAt with
  | some t =>
    if t < 10000 then OpenOutcome.opened
    else OpenOutcome.rejected "Signaling connection timeout"
  | none => OpenOutcome.rejected "Signaling connection timeout"

/-- WebcamViewer connectWebSocket: setTimeout(reject('WebSocket connection
timeout'), 10000), cleared by onopen. -/
def streamOpenRace (openAt : Option Nat) : OpenOutcome :=
  match openAt with
  | some t =>
    if t < 10000 then OpenOutcome.opened
    else OpenOutcome.rejected "WebSocket connection timeout"
  | none => OpenOutcome.rejected "WebSocket connection timeout"

/-- StreamViewer.tsx connectWebRTC arms no timer: if the signaling socket's
open event never occurs (and no error event fires) the attempt never settles. -/
def svSignalingOpenRace (openAt : Option Nat) : OpenOutcome :=
  match openAt with
  | some _ => OpenOutcome.opened
  | none => OpenOutcome.pending

/-- StreamViewer.tsx connectWebSocket likewise arms no timer. -/
def svStreamOpenRace (openAt : Option Nat) : OpenOutcome :=
  match openAt with
  | some _ => OpenOutcome.opened
  | none => OpenOutcome.pending

/-- Protocol-level rejection message of the WebcamViewer's signaling onerror
handler, for comparison with the timeout messages. -/
def signalingErrorRejectMsg : String := "Signaling server connection failed"

/-- Protocol-level rejection message of the WebcamViewer's streaming onerror
handler. -/
def streamErrorRejectMsg : String := "WebSocket connection failed"

/-- connectionStatus values of the useMQTT hook. -/
inductive MqttStatus where
  | Connecting
  | Connected
  | Disconnected
  | Reconnecting
  | ErrorStatus
  deriving DecidableEq, Repr

/-- State of the useMQTT hook: whether the client object exists, the
isConnected flag, the connectionStatus string and the error message. -/
structure MQTTState where
  hasClient : Bool
  isConnected : Bool
  connectionStatus : MqttStatus
  error : Option String
  deriving DecidableEq, Repr

/-- Events the mqtt client emits, as handled by useMQTT.ts. -/
inductive MqttEvent where
  | connectEvt
  | errorEvt (msg : String)
  | disconnectEvt
  | reconnectEvt
  | closeEvt
  | offlineEvt
  deriving DecidableEq, Repr

/-- The useMQTT event handlers: 'connect' sets Connected/isConnected and clears
the error; 'error' sets Error status with a message and clears isConnected;
'disconnect' and 'offline' set Disconnected and clear isConnected; 'reconnect'
sets Reconnecting (touching nothing else); 'close' only logs. -/
def mqttStep (s : MQTTState) (e : MqttEvent) : MQTTState :=
  match e with
  | MqttEvent.connectEvt =>
    { s with
      hasClient := true
      isConnected := true
      connectionStatus := MqttStatus.Connected
      error := none }
  | MqttEvent.errorEvt m =>
    { s with
      connectionStatus := MqttStatus.ErrorStatus
      error := some ("Connection failed: " ++ m)
      isConnected := false }
  | MqttEvent.disconnectEvt =>
    { s with connectionStatus := MqttStatus.Disconnected, isConnected := false }
  | MqttEvent.reconnectEvt =>
    { s with connectionStatus := MqttStatus.Reconnecting }
  | MqttEvent.closeEvt => s
  | MqttEvent.offlineEvt =>
    { s with connectionStatus := MqttStatus.Disconnected, isConnected := false }

/-- The synchronous part of connectToMQTT: the client object is created and
status set to Connecting. -/
def connectToMQTT (s : MQTTState) : MQTTState :=
  { s with hasClient := true, connectionStatus := MqttStatus.Connecting }

/-- A broker publish performed by publishMessage (topic, payload, qos). -/
inductive PubAction where
  | publish (topic : String) (payload : String) (qos : Nat)
  deriving DecidableEq, Repr

/-- publishMessage of useMQTT.ts: if the client object exists and isConnected
is set, publish with qos 1 and return true; otherwise log a warning, perform
nothing, and return false.  It is a total function — no code path throws. -/
def publishMessage (s : MQTTState) (topic payload : String) : Bool × List PubAction :=
  if s.hasClient && s.isConnected then
    (true, [PubAction.publish topic payload 1])
  else
    (false, [])

/-- State of the RemoteVehicleControl page that the control handlers touch:
the hook state and the activeControls set (a JS Set kept as an
insertion-ordered duplicate-free list). -/
structure ControlState where
  mqtt : MQTTState
  activeControls : List String
  deriving DecidableEq, Repr

/-- Topic for a momentary control command. -/
def controlTopic (direction : String) : String :=
  "userxyz/device/control/" ++ direction

/-- new Set([...prev, direction]): appends if absent. -/
def addControl (l : List String) (d : String) : List String :=
  if d ∈ l then l else l ++ [d]

/-- newSet.delete(direction): removes the direction. -/
def removeControl (l : List String) (d : String) : List String :=
  l.filter (fun x => x ≠ d)

/-- handleControlPress of Index.tsx: publish '1' on the control topic and add
the direction to activeControls only if the publish reported success. -/
def handleControlPress (s : ControlState) (direction : String) :
    ControlState × List PubAction :=
  let r := publishMessage s.mqtt (controlTopic direction) "1"
  (if r.1 then { s with activeControls := addControl s.activeControls direction } else s,
   r.2)

/-- handleControlRelease of Index.tsx: publish '0' on the control topic and
remove the direction from activeControls only if the publish reported
success. -/
def handleControlRelease (s : ControlState) (direction : String) :
    ControlState × List PubAction :=
  let r := publishMessage s.mqtt (controlTopic direction) "0"
  (if r.1 then { s with activeControls := removeControl s.activeControls direction } else s,
   r.2)

/-- Looking up a key in the handle table after updating that key applies the
update to the found value; other keys are untouched. -/
theorem alookup_updAt {β : Type} (l : List (Nat × β)) (h k : Nat) (f : β → β) :
    alookup k (updAt l h f) =
      if k = h then (alookup k l).map f else alookup k l := by
  induction l with
  | nil => simp [updAt, alookup]
  | cons p t ih =>
    obtain ⟨pk, pv⟩ := p
    simp only [updAt, List.map_cons] at ih ⊢
    by_cases h1 : pk = h
    · subst h1
      by_cases h2 : k = pk <;> simp [alookup, h2, ih]
    · by_cases h2 : k = pk
      · subst h2
        simp [alookup, h1]
      · simp [alookup, h1, h2, ih]

/-- Lookup at the head of the handle table. -/
theorem alookup_cons_self {β : Type} (k : Nat) (v : β) (t : List (Nat × β)) :
    alookup k ((k, v) :: t) = some v := by
  simp [alookup]

/-- The WebcamViewer component's initial state: blank broadcast id, no flags
set, no transports created. -/
def wv0 : WV :=
  { broadcastId := "", isConnecting := false, isConnected := false, error := none,
    viewerCount := 0, streamQuality := Quality.HD, connectionType := none,
    peerConnectionRef := none, signalingWsRef := none, websocketRef := none,
    videoSrcObject := none, videoSrc := "", nextId := 0, socks := [], pcs := [],
    attemptCount := 0, sent := [], netLog := [] }

/-- Initial state with a whitespace-only broadcast id typed in. -/
def wvBlank : WV := { wv0 with broadcastId := "   " }

/-- Attempt 0: connect("A") where both the WebRTC attempt and the WebSocket
fallback fail. -/
def sFailA : WV := connectToStream (setBroadcastId wv0 "A") false false

/-- After the failed attempt for "A", the user enters "B" and connects; the
WebRTC attempt of attempt 1 succeeds. -/
def sConnB : WV := connectToStream (setBroadcastId sFailA "B") true false

/-- Mid-negotiation state for "A": the signaling socket (handle 0) and the
peer connection (handle 1) exist, no remote description yet. -/
def sMidA : WV := connectStart (setBroadcastId wv0 "A")

/-- After an ICE candidate arrived before the offer. -/
def sMidA1 : WV := handleSignalingMessage sMidA 0 (SigMsg.iceCandidate (some "c1"))

/-- After the offer then arrived and was applied as remote description. -/
def sMidA2 : WV := handleSignalingMessage sMidA1 0 (SigMsg.offer "sdpA")

/-- connect("A") that fails over WebRTC but connects via the fallback socket. -/
def sConnA : WV := connectToStream (setBroadcastId wv0 "A") false true

/-- A second connect("B") issued while still connected to "A"; both of its
transport attempts fail. -/
def sReB : WV := connectToStream (setBroadcastId sConnA "B") false false

/-- connect("CAR") that connects via the fallback socket (used to exercise
disconnect on a state that holds transports). -/
def sC4 : WV := connectToStream (setBroadcastId wv0 "CAR") false true

/-- C4: disconnect() is idempotent in every state: a second immediate call has
no observable effect (full state equality); after disconnect there is no held
transport ref, the displayed media is cleared, status is Idle ('Disconnected'),
viewer count and transport kind are reset; and disconnect closes (invokes
close() on) whichever peer connection / signaling socket / streaming socket the
refs held.  It is safe on states that never connected (the refs are simply
none). -/
theorem c4_disconnect_idempotent (s : WV) :
    disconnect (disconnect s) = disconnect s ∧
    (∀ h i, s.peerConnectionRef = some h → alookup h s.pcs = some i →
      alookup h (disconnect s).pcs = some { i with closed := true }) ∧
    (∀ h i, s.websocketRef = some h → alookup h s.socks = some i →
      alookup h (disconnect s).socks = some { i with closed := true }) ∧
    (∀ h i, s.signalingWsRef = some h → alookup h s.socks = some i →
      alookup h (disconnect s).socks = some { i with closed := true }) ∧
    (disconnect s).isConnected = false ∧
    (disconnect s).isConnecting = false ∧
    (disconnect s).error = none ∧
    (disconnect s).viewerCount = 0 ∧
    (disconnect s).connectionType = none ∧
    (disconnect s).peerConnectionRef = none ∧
    (disconnect s).signalingWsRef = none ∧
    (disconnect s).websocketRef = none ∧
    (disconnect s).videoSrcObject = none ∧
    (disconnect s).videoSrc = "" ∧
    getStatusText (disconnect s) = "Disconnected" := by
  refine ⟨rfl, ?_, ?_, ?_, rfl, rfl, rfl, rfl, rfl, rfl, rfl, rfl, rfl, rfl, rfl⟩
  · intro h i href hlook
    show alookup h (closeRefPC s.pcs s.peerConnectionRef) = _
    rw [href]
    simp [closeRefPC, closePC, alookup_updAt, hlook]
  · intro h i href hlook
    show alookup h (closeRefSock (closeRefSock s.socks s.signalingWsRef) s.websocketRef) = _
    rw [href]
    cases hsig : s.signalingWsRef with
    | none => simp [closeRefSock, closeSock, alookup_updAt, hlook]
    | some k =>
      by_cases hk : h = k
      · subst hk
        simp [closeRefSock, closeSock, alookup_updAt, hlook]
      · simp [closeRefSock, closeSock, alookup_updAt, hlook, hk]
  · intro h i href hlook
    show alookup h (closeRefSock (closeRefSock s.socks s.signalingWsRef) s.websocketRef) = _
    rw [href]
    cases hws : s.websocketRef with
    | none => simp [closeRefSock, closeSock, alookup_updAt, hlook]
    | some k =>
      by_cases hk : h = k
      · subst hk
        simp [closeRefSock, closeSock, alookup_updAt, hlook]
      · simp [closeRefSock, closeSock, alookup_updAt, hlook, hk]

/-- Witness for C4 at a concrete connected state: disconnect closes the held
streaming socket (handle 2) and the held peer connection (handle 1). -/
theorem c4_witness :
    alookup 2 (disconnect sC4).socks =
      some { kind := SockKind.stream, attempt := 0, bid := "CAR", pc := 0,
             closed := true } ∧
    alookup 1 (disconnect sC4).pcs =
      some { attempt := 0, remoteDescription := none, localDescription := none,
             addedCandidates := [], closed := true } :=
  ⟨(c4_disconnect_idempotent sC4).2.2.1 2
      { kind := SockKind.stream, attempt := 0, bid := "CAR", pc := 0, closed := false }
      (by decide) (by decide),
   (c4_disconnect_idempotent sC4).2.1 1
      { attempt := 0, remoteDescription := none, localDescription := none,
        addedCandidates := [], closed := false }
      (by decide) (by decide)⟩

/-- C5: connect with a blank (empty or whitespace-only) broadcast id performs
no network open, creates no transport, does not change the connecting or
connected flags or the attempt counter, and only sets the validation error
message, synchronously. -/
theorem c5_blank_id_validation (s : WV) (a b : Bool) (hb : trimJS s.broadcastId = "") :
    connectToStream s a b = { s with error := some "Please enter a valid Broadcast ID" } ∧
    (connectToStream s a b).netLog = s.netLog ∧
    (connectToStream s a b).socks = s.socks ∧
    (connectToStream s a b).pcs = s.pcs ∧
    (connectToStream s a b).isConnecting = s.isConnecting ∧
    (connectToStream s a b).isConnected = s.isConnected ∧
    (connectToStream s a b).attemptCount = s.attemptCount := by
  refine ⟨?_, ?_, ?_, ?_, ?_, ?_, ?_⟩ <;> simp [connectToStream, hb]

/-- Witness for C5 at a whitespace-only broadcast id. -/
theorem c5_witness :
    connectToStream wvBlank true false =
      { wvBlank with error := some "Please enter a valid Broadcast ID" } :=
  (c5_blank_id_validation wvBlank true false (by decide)).1

/-- C6: publishMessage is gated on the hook's connectivity state: while not
currently connected it performs no publish and returns false (it is a total
function, so no exception escapes), and while connected with a client it
publishes at qos 1 and returns true.  A state reached by the offline and
reconnect events has status Reconnecting, and publish there returns false. -/
theorem c6_publish_gated (s : MQTTState) (t p : String) :
    (s.isConnected = false → publishMessage s t p = (false, [])) ∧
    (s.hasClient = true → s.isConnected = true →
      publishMessage s t p = (true, [PubAction.publish t p 1])) ∧
    (mqttStep (mqttStep s MqttEvent.offlineEvt) MqttEvent.reconnectEvt).connectionStatus =
      MqttStatus.Reconnecting ∧
    publishMessage (mqttStep (mqttStep s MqttEvent.offlineEvt) MqttEvent.reconnectEvt) t p =
      (false, []) := by
  refine ⟨?_, ?_, rfl, ?_⟩
  · intro h; simp [publishMessage, h]
  · intro h1 h2; simp [publishMessage, h1, h2]
  · simp [publishMessage, mqttStep]

/-- The useMQTT hook's initial state. -/
def mqtt0 : MQTTState :=
  { hasClient := false, isConnected := false,
    connectionStatus := MqttStatus.Disconnected, error := none }

/-- Hook state after connectToMQTT and a successful connect event. -/
def mqttConnected : MQTTState := mqttStep (connectToMQTT mqtt0) MqttEvent.connectEvt

/-- Witness for C6: publish succeeds at the connected state. -/
theorem c6_witness :
    publishMessage mqttConnected "userxyz/device/cam/capture" "1" =
      (true, [PubAction.publish "userxyz/device/cam/capture" "1" 1]) :=
  (c6_publish_gated mqttConnected "userxyz/device/cam/capture" "1").2.1 rfl rfl

/-- C10: the active-controls set changes only when the corresponding publish
reports success: while disconnected, press and release perform no publish and
leave the state (including the active set) unchanged; while connected, press
publishes payload '1' and adds the direction, release publishes payload '0'
and removes it. -/
theorem c10_controls_follow_publish (s : ControlState) (d : String) :
    (s.mqtt.isConnected = false →
      handleControlPress s d = (s, []) ∧ handleControlRelease s d = (s, [])) ∧
    (s.mqtt.hasClient = true → s.mqtt.isConnected = true →
      handleControlPress s d =
        ({ s with activeControls := addControl s.activeControls d },
         [PubAction.publish (controlTopic d) "1" 1]) ∧
      handleControlRelease s d =
        ({ s with activeControls := removeControl s.activeControls d },
         [PubAction.publish (controlTopic d) "0" 1])) := by
  constructor
  · intro h
    constructor <;> simp [handleControlPress, handleControlRelease, publishMessage, h]
  · intro h1 h2
    constructor <;> simp [handleControlPress, handleControlRelease, publishMessage, h1, h2]

/-- Control page state with the broker connected and 'front' held down. -/
def ctrlConnected : ControlState :=
  { mqtt := mqttConnected, activeControls := ["front"] }

/-- Control page state where the broker went offline while 'front' was held. -/
def ctrlOffline : ControlState :=
  { mqtt := mqttStep mqttConnected MqttEvent.offlineEvt, activeControls := ["front"] }

/-- Witness for C10: while offline, releasing 'front' publishes nothing and the
direction stays in the active set; while connected, releasing publishes '0' and
clears it. -/
theorem c10_witness :
    handleControlRelease ctrlOffline "front" = (ctrlOffline, []) ∧
    handleControlRelease ctrlConnected "front" =
      ({ ctrlConnected with activeControls := removeControl ["front"] "front" },
       [PubAction.publish (controlTopic "front") "0" 1]) :=
  ⟨((c10_controls_follow_publish ctrlOffline "front").1 rfl).2,
   ((c10_controls_follow_publish ctrlConnected "front").2 rfl rfl).2⟩

/-- C1 counterexample: from the initial state, connect("ABC123") with the
WebRTC attempt and the WebSocket fallback both failing ends with the
user-facing error set — but three transport handles (the peer connection, the
signaling socket and the fallback socket) are still held, where the claim
demands zero live transports remain. -/
theorem c1_counterexample :
    liveHeldTransports (connectToStream (setBroadcastId wv0 "ABC123") false false) = 3 ∧
    (connectToStream (setBroadcastId wv0 "ABC123") false false).error =
      some "Unable to connect to stream. Please check the Broadcast ID and ensure the broadcaster is active." := by
  decide

/-- C1 (amended): for every non-blank broadcast id, when the WebRTC attempt
fails a fallback WebSocket attempt is made with the same (trimmed) broadcast
id, and when the fallback also fails the status is Error with a user-facing
message and isConnecting is cleared — but the failure path performs no cleanup:
all three transport handles created along the way remain held by the refs, and
the handle table still records them as never closed. -/
theorem c1_amended_fallback_error_transports (s : WV)
    (hnb : ¬ trimJS s.broadcastId = "") :
    (connectToStream s false false).netLog =
      s.netLog ++ [NetAction.openSignaling s.broadcastId,
                   NetAction.openStream (trimJS s.broadcastId)] ∧
    (connectToStream s false false).error =
      some "Unable to connect to stream. Please check the Broadcast ID and ensure the broadcaster is active." ∧
    getStatusText (connectToStream s false false) = "Error" ∧
    (connectToStream s false false).isConnecting = false ∧
    (connectToStream s false false).isConnected = s.isConnected ∧
    liveHeldTransports (connectToStream s false false) = 3 ∧
    (connectToStream s false false).peerConnectionRef = some (s.nextId + 1) ∧
    (connectToStream s false false).signalingWsRef = some s.nextId ∧
    (connectToStream s false false).websocketRef = some (s.nextId + 2) ∧
    (connectToStream s false false).socks =
      (s.nextId + 2,
        { kind := SockKind.stream, attempt := s.attemptCount,
          bid := trimJS s.broadcastId, pc := 0, closed := false }) ::
      (s.nextId,
        { kind := SockKind.signaling, attempt := s.attemptCount,
          bid := s.broadcastId, pc := s.nextId + 1, closed := false }) :: s.socks ∧
    (connectToStream s false false).pcs =
      (s.nextId + 1,
        { attempt := s.attemptCount, remoteDescription := none,
          localDescription := none, addedCandidates := [], closed := false }) :: s.pcs := by
  refine ⟨?_, ?_, ?_, ?_, ?_, ?_, ?_, ?_, ?_, ?_, ?_⟩ <;>
    simp [connectToStream, connectStart, beginWebRTCAttempt, beginWebSocketAttempt,
          liveHeldTransports, getStatusText, hnb]

/-- Witness for C1 (amended) at the concrete input of the counterexample. -/
theorem c1_witness :
    (connectToStream (setBroadcastId wv0 "ABC123") false false).netLog =
      [NetAction.openSignaling "ABC123", NetAction.openStream (trimJS "ABC123")] :=
  (c1_amended_fallback_error_transports (setBroadcastId wv0 "ABC123") (by decide)).1

/-- C7 counterexample: connect("A") connects via the fallback socket; a second
connect("B") issued while still Connected is neither rejected nor ignored — it
runs a fresh negotiation (the network log grows) and afterwards sockets of two
distinct attempts are simultaneously live (never closed). -/
theorem c7_counterexample :
    sConnA.isConnected = true ∧
    ¬ sReB.netLog = sConnA.netLog ∧
    (openAttempts sReB).length = 2 := by
  decide

/-- C7 (amended): connectToStream applies no re-entrancy guard: called in any
state with a non-blank broadcast id — in particular while already Connecting
or Connected — it starts a new negotiation (the attempt counter increases and
new transports are opened and stored in the refs), and every transport entry
of earlier attempts is left exactly as it was, so it is never closed by the
new call and attempts can hold live transports simultaneously. -/
theorem c7_amended_no_reentrancy_guard (s : WV) (a b : Bool)
    (hnb : ¬ trimJS s.broadcastId = "") :
    (connectToStream s a b).attemptCount = s.attemptCount + 1 ∧
    (connectToStream s a b).netLog =
      s.netLog ++ (NetAction.openSignaling s.broadcastId ::
        (if a then [] else [NetAction.openStream (trimJS s.broadcastId)])) ∧
    (connectToStream s a b).socks =
      (if a then []
       else [(s.nextId + 2,
              { kind := SockKind.stream, attempt := s.attemptCount,
                bid := trimJS s.broadcastId, pc := 0, closed := false })]) ++
      ((s.nextId,
         { kind := SockKind.signaling, attempt := s.attemptCount,
           bid := s.broadcastId, pc := s.nextId + 1, closed := false }) :: s.socks) ∧
    (connectToStream s a b).pcs =
      (s.nextId + 1,
        { attempt := s.attemptCount, remoteDescription := none,
          localDescription := none, addedCandidates := [], closed := false }) :: s.pcs := by
  cases a <;> cases b <;>
    refine ⟨?_, ?_, ?_, ?_⟩ <;>
      simp [connectToStream, connectStart, beginWebRTCAttempt, beginWebSocketAttempt,
            onTrack, alookup_cons_self, hnb]

/-- Witness for C7 (amended): the re-entrant connect("B") issued while
connected to "A" starts attempt number 2. -/
theorem c7_witness :
    (connectToStream (setBroadcastId sConnA "B") false false).attemptCount =
      (setBroadcastId sConnA "B").attemptCount + 1 :=
  (c7_amended_no_reentrancy_guard (setBroadcastId sConnA "B") false false (by decide)).1

/-- C2 counterexample: after connect("A") (attempt 0, both transports failed)
and connect("B") (attempt 1, connected via WebRTC), a delayed stream-info
event arriving on A's still-open signaling socket (handle 0, which belongs to
attempt 0, not to the current attempt) overwrites the component's viewer
count — the late event of the superseded attempt mutates final state instead
of being discarded. -/
theorem c2_counterexample :
    sConnB.attemptCount = 2 ∧
    alookup 0 sConnB.socks =
      some { kind := SockKind.signaling, attempt := 0, bid := "A", pc := 1,
             closed := false } ∧
    sConnB.viewerCount = 1 ∧
    (handleSignalingMessage sConnB 0
      (SigMsg.streamInfo (some 99) (some Quality.SD))).viewerCount = 99 := by
  decide

/-- C2 (amended): there is no per-attempt generation token.  A new connect
does not close the previous attempt's signaling socket and its onmessage
handler stays installed, so a late event arriving on any never-closed
signaling socket — in particular one belonging to a superseded attempt (its
attempt index is not the current one) — still mutates the component state:
a stream-info message overwrites viewerCount and streamQuality
unconditionally. -/
theorem c2_amended_stale_events_mutate (s : WV) (h : Nat) (info : SockInfo)
    (vc : Nat) (q : Quality)
    (hl : alookup h s.socks = some info)
    (hopen : info.closed = false)
    (hkind : info.kind = SockKind.signaling)
    (hstale : ¬ info.attempt + 1 = s.attemptCount) :
    (handleSignalingMessage s h (SigMsg.streamInfo (some vc) (some q))).viewerCount = vc ∧
    (handleSignalingMessage s h (SigMsg.streamInfo (some vc) (some q))).streamQuality = q := by
  constructor <;> simp [handleSignalingMessage, hl, hopen, hkind]

/-- Witness for C2 (amended) at the concrete two-attempt trace. -/
theorem c2_witness :
    (handleSignalingMessage sConnB 0
      (SigMsg.streamInfo (some 99) (some Quality.SD))).streamQuality = Quality.SD :=
  (c2_amended_stale_events_mutate sConnB 0
    { kind := SockKind.signaling, attempt := 0, bid := "A", pc := 1, closed := false }
    99 Quality.SD (by decide) rfl rfl (by decide)).2

/-- C3 counterexample: in a mid-negotiation state an ICE candidate arrives
before the offer; it leaves the state completely unchanged (it is not
buffered anywhere), and after the offer has set the remote description the
candidate list is empty — the claim requires the early candidate to have been
applied at that point. -/
theorem c3_counterexample :
    sMidA1 = sMidA ∧
    Option.map PCInfo.remoteDescription (alookup 1 sMidA2.pcs) = some (some "sdpA") ∧
    Option.map PCInfo.addedCandidates (alookup 1 sMidA2.pcs) = some [] ∧
    ¬ Option.map PCInfo.addedCandidates (alookup 1 sMidA2.pcs) = some ["c1"] := by
  decide

/-- C3 (amended): ICE candidates are not buffered.  A candidate message is
handed straight to addIceCandidate on the captured peer connection: while no
remote description is set the call fails, the failure is caught and logged,
and the whole component state is unchanged (the candidate is dropped); once a
remote description is set the candidate is applied immediately (appended in
arrival order). -/
theorem c3_amended_early_candidates_dropped (s : WV) (h : Nat) (sinfo : SockInfo)
    (pinfo : PCInfo) (c : String)
    (hl : alookup h s.socks = some sinfo)
    (hopen : sinfo.closed = false)
    (hkind : sinfo.kind = SockKind.signaling)
    (hp : alookup sinfo.pc s.pcs = some pinfo)
    (hpopen : pinfo.closed = false) :
    (pinfo.remoteDescription = none →
      handleSignalingMessage s h (SigMsg.iceCandidate (some c)) = s) ∧
    (∀ sdp, pinfo.remoteDescription = some sdp →
      handleSignalingMessage s h (SigMsg.iceCandidate (some c)) =
        { s with pcs := updAt s.pcs sinfo.pc (fun _ =>
            { pinfo with addedCandidates := pinfo.addedCandidates ++ [c] }) }) := by
  constructor
  · intro hr
    simp [handleSignalingMessage, hl, hopen, hkind, hp, hpopen, addIceCandidate, hr]
  · intro sdp hr
    simp [handleSignalingMessage, hl, hopen, hkind, hp, hpopen, addIceCandidate, hr]

/-- Witness for C3 (amended): the early candidate leaves the mid-negotiation
state unchanged. -/
theorem c3_witness :
    handleSignalingMessage sMidA 0 (SigMsg.iceCandidate (some "c1")) = sMidA :=
  (c3_amended_early_candidates_dropped sMidA 0
    { kind := SockKind.signaling, attempt := 0, bid := "A", pc := 1, closed := false }
    { attempt := 0, remoteDescription := none, localDescription := none,
      addedCandidates := [], closed := false } "c1"
    (by decide) rfl rfl (by decide) rfl).1 rfl

/-- C8 counterexample: in the StreamViewer.tsx variant neither open attempt is
bounded by a timeout: with no open event the attempt stays pending forever
instead of failing with a timeout-flavored error. -/
theorem c8_counterexample :
    svSignalingOpenRace none = OpenOutcome.pending ∧
    svStreamOpenRace none = OpenOutcome.pending := by
  decide

/-- C8 (amended): in the WebcamViewer variant both open attempts are bounded
by an explicit 10000 ms timeout: if the open event does not occur before the
timer fires, the attempt is rejected with a timeout message distinct from the
protocol-level rejection messages, and an open event before the deadline lets
the attempt proceed.  In the StreamViewer.tsx variant no timer exists and an
attempt with no open event stays pending. -/
theorem c8_amended_timeouts (t u : Nat) (ht : 10000 ≤ t) (hu : u < 10000) :
    signalingOpenRace none = OpenOutcome.rejected "Signaling connection timeout" ∧
    signalingOpenRace (some t) = OpenOutcome.rejected "Signaling connection timeout" ∧
    streamOpenRace none = OpenOutcome.rejected "WebSocket connection timeout" ∧
    streamOpenRace (some t) = OpenOutcome.rejected "WebSocket connection timeout" ∧
    signalingOpenRace (some u) = OpenOutcome.opened ∧
    streamOpenRace (some u) = OpenOutcome.opened ∧
    ¬ "Signaling connection timeout" = signalingErrorRejectMsg ∧
    ¬ "WebSocket connection timeout" = streamErrorRejectMsg ∧
    svSignalingOpenRace none = OpenOutcome.pending ∧
    svStreamOpenRace none = OpenOutcome.pending := by
  have h1 : ¬ t < 10000 := Nat.not_lt.mpr ht
  refine ⟨rfl, ?_, rfl, ?_, ?_, ?_, by decide, by decide, rfl, rfl⟩
  · simp [signalingOpenRace, h1]
  · simp [streamOpenRace, h1]
  · simp [signalingOpenRace, hu]
  · simp [streamOpenRace, hu]

/-- Witness for C8 (amended) at the 10000 ms boundary and a 5 ms open event. -/
theorem c8_witness :
    signalingOpenRace (some 10000) =
      OpenOutcome.rejected "Signaling connection timeout" :=
  (c8_amended_timeouts 10000 5 (by decide) (by decide)).2.1

/-- StreamViewer.tsx component state while connected. -/
def svConn : SVState :=
  { isConnecting := false, isConnected := true, error := none, viewerCount := 3 }

/-- C9 counterexample: in the StreamViewer.tsx variant a normal closure
(code 1000 — e.g. the socket closed by the user's own disconnect) still
raises 'Connection lost'; and in the WebcamViewer variant an abnormal closure
raises it on a state that was never connected. -/
theorem c9_counterexample :
    (svWsOnClose svConn 1000).error = some "Connection lost" ∧
    wv0.isConnected = false ∧
    (wsOnClose wv0 1006).error = some "Connection lost" := by
  decide

/-- C9 (amended): the WebcamViewer variant's streaming onclose handler clears
isConnected and raises 'Connection lost' exactly when the closure code is not
1000, regardless of whether the socket had ever been connected; a code-1000
closure leaves the error untouched.  The StreamViewer.tsx variant's handler
raises 'Connection lost' on every closure, normal ones included. -/
theorem c9_amended_close_handling (s : WV) (t : SVState) (code : Nat) :
    (wsOnClose s code).isConnected = false ∧
    (¬ code = 1000 → (wsOnClose s code).error = some "Connection lost") ∧
    (code = 1000 → (wsOnClose s code).error = s.error) ∧
    (svWsOnClose t code).error = some "Connection lost" ∧
    (svWsOnClose t code).isConnected = false := by
  refine ⟨?_, ?_, ?_, rfl, rfl⟩
  · by_cases hc : code = 1000 <;> simp [wsOnClose, hc]
  · intro hc; simp [wsOnClose, hc]
  · intro hc; simp [wsOnClose, hc]

/-- Witness for C9 (amended): a normal closure in the WebcamViewer variant
does not touch the error field. -/
theorem c9_witness :
    (wsOnClose wv0 1000).error = wv0.error :=
  (c9_amended_close_handling wv0 svConn 1000).2.2.1 rfl
